import Mathlib

/-!
Shallow embedding of `backend/server.py` (forex9000/Cam): a minimal
account-authenticated video-upload service.  Users register/login to obtain a
bearer token; protected endpoints pass through `get_current_user` and operate
on the per-user video record store.

Modelling choices:
* The MongoDB collections `db.users` and `db.videos` are modelled as Lean
  lists in insertion order; `find_one`/`find` scan in that order,
  `insert_one` appends, `delete_one` removes the first matching document.
* JWTs are modelled as their claim set plus a flag saying whether the
  signature verifies against the process secret; timestamps are `Nat`
  seconds.  `timedelta(minutes=m)` becomes `m * 60`.
* `uuid.uuid4()` and bcrypt's random salt are nondeterministic inputs, so the
  fresh id and the salt are explicit arguments of the operations that draw
  them.
* Geolocation floats are carried opaquely (the code never computes with
  them), so they are embedded as `Option Int`.
* Handlers that mutate the store return the response together with the new
  store contents; `raise HTTPException` becomes an `Except.error` carrying
  the status code, detail message and whether the `WWW-Authenticate: Bearer`
  header is attached.
-/

namespace Cam

/-- An HTTP error response as raised by `HTTPException` in `server.py`:
status code, `detail` body, and whether `headers={"WWW-Authenticate": "Bearer"}`
is attached. -/
structure HTTPErrorResponse where
  statusCode : Nat
  detail : String
  wwwAuthenticateBearer : Bool
deriving Repr, DecidableEq

/-- `server.py` line 94: the single 401 used for every authentication failure. -/
def credentials_exception : HTTPErrorResponse :=
  ⟨401, "Could not validate credentials", true⟩

/-- `server.py` line 146: the login failure response. -/
def incorrectEmailOrPassword : HTTPErrorResponse :=
  ⟨401, "Incorrect email or password", true⟩

/-- `server.py` line 119: duplicate registration. -/
def emailAlreadyRegistered : HTTPErrorResponse :=
  ⟨400, "Email already registered", false⟩

/-- `server.py` lines 198 and 208: video not found / not owned. -/
def videoNotFound : HTTPErrorResponse :=
  ⟨404, "Video not found", false⟩

/-- Modelled from the spec (§4.1); the hasher itself is the external
`passlib` bcrypt context, not repository code.  "slow, salted, one-way
algorithm with per-call random salt"; `verify` "re-derives and compares using
the embedded salt".  The blob records the salt and the plaintext it was
derived from; one-wayness is not needed by any claim. -/
structure HashBlob where
  salt : Nat
  derivedFrom : String
deriving Repr, DecidableEq

/-- `server.py` line 80: `pwd_context.hash(password)`, salt made explicit. -/
def get_password_hash (password : String) (salt : Nat) : HashBlob :=
  ⟨salt, password⟩

/-- `server.py` line 77: `pwd_context.verify(plain_password, hashed_password)` —
re-derive with the embedded salt and compare. -/
def verify_password (plain_password : String) (hashed_password : HashBlob) : Bool :=
  get_password_hash plain_password hashed_password.salt == hashed_password

/-- A JWT as produced by `jose.jwt.encode` with the process secret: the claim
set (`sub`, `exp`) plus whether its signature verifies against that secret. -/
structure JWTToken where
  sub : Option String
  exp : Nat
  sig_ok : Bool
deriving Repr, DecidableEq

/-- `server.py` lines 83–91 (`create_access_token`): copy the data (its only
claim in this app is `sub`), set `exp` to now plus the given delta (default 15
minutes), sign with the process secret. -/
def create_access_token (sub : Option String) (expires_delta : Option Nat)
    (now : Nat) : JWTToken :=
  { sub := sub
    exp := match expires_delta with
      | some d => now + d
      | none => now + 15 * 60
    sig_ok := true }

/-- Modelled from the spec (§4.2); the verifier itself is the external
`jose.jwt.decode`, not repository code.  "checks signature integrity and
expiry; fails with `InvalidToken` if the signature does not verify, the
payload is malformed, or the expiry has passed" — a token is valid strictly
before its expiry ("tokens remain valid until expiry", §8 "until its expiry
elapses, after which verification fails"). -/
def jwt_decode (t : JWTToken) (now : Nat) : Option JWTToken :=
  if t.sig_ok && decide (now < t.exp) then some t else none

/-- `server.py` lines 54–59: a stored user document. -/
structure User where
  id : String
  email : String
  phone : Option String
  hashed_password : HashBlob
  created_at : Nat
deriving Repr, DecidableEq

/-- `server.py` lines 61–68: a stored video document. -/
structure VideoRecord where
  id : String
  user_id : String
  video_data : String
  location_lat : Option Int
  location_lng : Option Int
  phone_number : Option String
  timestamp : Nat
deriving Repr, DecidableEq

/-- `server.py` lines 70–74: the upload request body.  `video_data` is any
string; no base64 validation is declared or performed. -/
structure VideoUpload where
  video_data : String
  location_lat : Option Int
  location_lng : Option Int
  phone_number : Option String
deriving Repr, DecidableEq

/-- `db.users.find_one({"email": email})`: first user document with that
email, in insertion order. -/
def findUserByEmail (users : List User) (email : String) : Option User :=
  users.find? (fun u => u.email == email)

/-- `db.videos.find_one({"id": video_id, "user_id": user_id})`: first video
document matching both the record id and the owner id. -/
def findVideoForUser (videos : List VideoRecord) (video_id user_id : String) :
    Option VideoRecord :=
  videos.find? (fun v => v.id == video_id && v.user_id == user_id)

/-- The document filter used by `get_video` and `delete_video`
(`{"id": video_id, "user_id": user_id}`). -/
def videoMatches (video_id user_id : String) (v : VideoRecord) : Bool :=
  v.id == video_id && v.user_id == user_id

/-- The bearer credential attached to a protected request: absent, present
but not a well-formed signed JWT (any `jose` parse error), or a JWT. -/
inductive Bearer where
  | absent
  | malformed
  | jwt (t : JWTToken)
deriving Repr, DecidableEq

/-- `server.py` lines 93–111 (`get_current_user`), the authentication gate.
Decode the bearer token (a `JWTError` — malformed token, bad signature,
expired — raises `credentials_exception`), require a `sub` claim, then look
the subject email up in `db.users`; a missing user raises the same
`credentials_exception`.  The absent-credentials case is modelled from the
spec (§4.3 step 1: "reject with `Unauthenticated` if absent"); in the source
it is handled by the framework's `HTTPBearer` dependency before this function
runs. -/
def get_current_user (users : List User) (b : Bearer) (now : Nat) :
    Except HTTPErrorResponse User :=
  match b with
  | .absent => .error credentials_exception
  | .malformed => .error credentials_exception
  | .jwt t =>
    match jwt_decode t now with
    | none => .error credentials_exception
    | some payload =>
      match payload.sub with
      | none => .error credentials_exception
      | some email =>
        match findUserByEmail users email with
        | none => .error credentials_exception
        | some user => .ok user

/-- The token response body `{access_token, token_type}`. -/
structure TokenOut where
  access_token : JWTToken
  token_type : String
deriving Repr, DecidableEq

/-- `server.py` line 23. -/
def ACCESS_TOKEN_EXPIRE_MINUTES : Nat := 30

/-- `server.py` lines 114–139 (`register`): reject if a user with this email
already exists (before inserting anything), otherwise hash the password,
insert the new user document and return a 30-minute token for the email.
The result pairs the response with the resulting `db.users` contents. -/
def register (users : List User) (email password : String) (phone : Option String)
    (salt : Nat) (freshId : String) (now : Nat) :
    Except HTTPErrorResponse TokenOut × List User :=
  match findUserByEmail users email with
  | some _ => (.error emailAlreadyRegistered, users)
  | none =>
    let hashed_password := get_password_hash password salt
    let user_obj : User := ⟨freshId, email, phone, hashed_password, now⟩
    let access_token :=
      create_access_token (some email) (some (ACCESS_TOKEN_EXPIRE_MINUTES * 60)) now
    (.ok ⟨access_token, "bearer"⟩, users ++ [user_obj])

/-- `server.py` lines 141–157 (`login`): look the email up; if no user exists
or the password does not verify, answer the single 401
`"Incorrect email or password"` with the `WWW-Authenticate: Bearer` header;
otherwise return a 30-minute token for the email. -/
def login (users : List User) (email password : String) (now : Nat) :
    Except HTTPErrorResponse TokenOut :=
  match findUserByEmail users email with
  | none => .error incorrectEmailOrPassword
  | some db_user =>
    if verify_password password db_user.hashed_password then
      .ok ⟨create_access_token (some email) (some (ACCESS_TOKEN_EXPIRE_MINUTES * 60)) now,
        "bearer"⟩
    else
      .error incorrectEmailOrPassword

/-- The upload response body `{message, video_id}`. -/
structure UploadOut where
  message : String
  video_id : String
deriving Repr, DecidableEq

/-- `server.py` lines 169–180 (`upload_video`): build a `VideoRecord` owned by
the current user with a fresh id and the current timestamp, insert it into
`db.videos`, and answer 200 with the new id.  No failure path exists. -/
def upload_video (videos : List VideoRecord) (current_user : User)
    (video : VideoUpload) (freshId : String) (now : Nat) :
    UploadOut × List VideoRecord :=
  let video_record : VideoRecord :=
    ⟨freshId, current_user.id, video.video_data, video.location_lat,
      video.location_lng, video.phone_number, now⟩
  (⟨"Video uploaded successfully", freshId⟩, videos ++ [video_record])

/-- A list-view summary: the dict built at `server.py` lines 186–192.  It has
no `video_data` field. -/
structure VideoSummary where
  id : String
  timestamp : Nat
  location_lat : Option Int
  location_lng : Option Int
  phone_number : Option String
deriving Repr, DecidableEq

/-- The projection applied to each listed video (drops `video_data`). -/
def summarize (v : VideoRecord) : VideoSummary :=
  ⟨v.id, v.timestamp, v.location_lat, v.location_lng, v.phone_number⟩

/-- `server.py` lines 182–192 (`get_user_videos`):
`db.videos.find({"user_id": current_user["id"]}).to_list(1000)` — the
documents owned by the caller, in store order, capped at 1000 by `to_list` —
each projected to the summary dict without the payload. -/
def get_user_videos (videos : List VideoRecord) (current_user : User) :
    List VideoSummary :=
  ((videos.filter (fun v => v.user_id == current_user.id)).take 1000).map summarize

/-- `server.py` lines 194–202 (`get_video`): find the document matching both
the requested id and the caller's user id; 404 if none. -/
def get_video (videos : List VideoRecord) (video_id : String) (current_user : User) :
    Except HTTPErrorResponse VideoRecord :=
  match findVideoForUser videos video_id current_user.id with
  | none => .error videoNotFound
  | some video => .ok video

/-- `server.py` lines 204–209 (`delete_video`):
`db.videos.delete_one({"id": video_id, "user_id": current_user["id"]})`
removes the first document matching both id and owner; if `deleted_count`
is zero the handler answers 404.  The result pairs the response with the
resulting `db.videos` contents. -/
def delete_video (videos : List VideoRecord) (video_id : String) (current_user : User) :
    Except HTTPErrorResponse String × List VideoRecord :=
  let deleted_count := if videos.any (videoMatches video_id current_user.id) then 1 else 0
  let videos' := videos.eraseP (videoMatches video_id current_user.id)
  if deleted_count == 0 then (.error videoNotFound, videos')
  else (.ok "Video deleted successfully", videos')

/-! ## Theorems -/

/-- C2: for every user that the credential store resolves by its email, a
token issued by login/register — a signed claim set with subject the user's
email and expiry the issue time plus 30 minutes (login with the correct
password returns exactly that token) — is accepted by the authentication
gate and resolves to that same user at every time strictly before the
expiry, and is rejected with the uniform 401 at every time at or after the
expiry. -/
theorem token_round_trip (users : List User) (u : User)
    (hres : findUserByEmail users u.email = some u) (t0 t : Nat) :
    (∀ pw, verify_password pw u.hashed_password = true →
      login users u.email pw t0 =
        .ok ⟨create_access_token (some u.email)
              (some (ACCESS_TOKEN_EXPIRE_MINUTES * 60)) t0, "bearer"⟩) ∧
    (t < t0 + 30 * 60 →
      get_current_user users
        (.jwt (create_access_token (some u.email)
          (some (ACCESS_TOKEN_EXPIRE_MINUTES * 60)) t0)) t = .ok u) ∧
    (t0 + 30 * 60 ≤ t →
      get_current_user users
        (.jwt (create_access_token (some u.email)
          (some (ACCESS_TOKEN_EXPIRE_MINUTES * 60)) t0)) t
        = .error credentials_exception) := by
  refine ⟨fun pw hpw => ?_, fun ht => ?_, fun ht => ?_⟩
  · simp [login, hres, hpw]
  · have hlt : t < t0 + ACCESS_TOKEN_EXPIRE_MINUTES * 60 := by
      simpa [ACCESS_TOKEN_EXPIRE_MINUTES] using ht
    simp [get_current_user, create_access_token, jwt_decode, hlt, hres]
  · have hge : ¬ t < t0 + ACCESS_TOKEN_EXPIRE_MINUTES * 60 := by
      simp only [ACCESS_TOKEN_EXPIRE_MINUTES]; omega
    simp [get_current_user, create_access_token, jwt_decode, hge]

/-- Witness for `token_round_trip` at a concrete one-user store: the fresh
token is accepted at time 100 and rejected at time 1800 (= issue 0 + 30 min). -/
theorem token_round_trip_witness :
    (login [⟨"id1", "a@b.c", none, ⟨0, "pw"⟩, 0⟩] "a@b.c" "pw" 0 =
      .ok ⟨create_access_token (some "a@b.c")
            (some (ACCESS_TOKEN_EXPIRE_MINUTES * 60)) 0, "bearer"⟩) ∧
    (get_current_user [⟨"id1", "a@b.c", none, ⟨0, "pw"⟩, 0⟩]
      (.jwt (create_access_token (some "a@b.c")
        (some (ACCESS_TOKEN_EXPIRE_MINUTES * 60)) 0)) 100
      = .ok ⟨"id1", "a@b.c", none, ⟨0, "pw"⟩, 0⟩) ∧
    (get_current_user [⟨"id1", "a@b.c", none, ⟨0, "pw"⟩, 0⟩]
      (.jwt (create_access_token (some "a@b.c")
        (some (ACCESS_TOKEN_EXPIRE_MINUTES * 60)) 0)) 1800
      = .error credentials_exception) :=
  ⟨(token_round_trip [⟨"id1", "a@b.c", none, ⟨0, "pw"⟩, 0⟩]
      ⟨"id1", "a@b.c", none, ⟨0, "pw"⟩, 0⟩ (by decide) 0 0).1 "pw" (by decide),
   (token_round_trip [⟨"id1", "a@b.c", none, ⟨0, "pw"⟩, 0⟩]
      ⟨"id1", "a@b.c", none, ⟨0, "pw"⟩, 0⟩ (by decide) 0 100).2.1 (by decide),
   (token_round_trip [⟨"id1", "a@b.c", none, ⟨0, "pw"⟩, 0⟩]
      ⟨"id1", "a@b.c", none, ⟨0, "pw"⟩, 0⟩ (by decide) 0 1800).2.2 (by decide)⟩

/-- C7: the authentication gate rejects with the identical 401
`credentials_exception` when the bearer token is absent, malformed, has a bad
signature, is expired, or verifies but its subject email matches no stored
user; in the remaining case it yields exactly the user whose email equals
the token's subject. -/
theorem gate_rejects_uniformly (users : List User) (now : Nat) :
    get_current_user users .absent now = .error credentials_exception ∧
    get_current_user users .malformed now = .error credentials_exception ∧
    (∀ t : JWTToken, t.sig_ok = false →
      get_current_user users (.jwt t) now = .error credentials_exception) ∧
    (∀ t : JWTToken, t.exp ≤ now →
      get_current_user users (.jwt t) now = .error credentials_exception) ∧
    (∀ (t : JWTToken) (e : String), t.sig_ok = true → now < t.exp →
      t.sub = some e → findUserByEmail users e = none →
      get_current_user users (.jwt t) now = .error credentials_exception) ∧
    (∀ (t : JWTToken) (e : String) (u : User), t.sig_ok = true → now < t.exp →
      t.sub = some e → findUserByEmail users e = some u →
      get_current_user users (.jwt t) now = .ok u) := by
  refine ⟨rfl, rfl, fun t hsig => ?_, fun t hexp => ?_,
    fun t e hsig hlt hsub hnone => ?_, fun t e u hsig hlt hsub hsome => ?_⟩
  · simp [get_current_user, jwt_decode, hsig]
  · have : ¬ now < t.exp := by omega
    simp [get_current_user, jwt_decode, this]
  · simp [get_current_user, jwt_decode, hsig, hlt, hsub, hnone]
  · simp [get_current_user, jwt_decode, hsig, hlt, hsub, hsome]

/-- Witness for `gate_rejects_uniformly`: the four reject branches and the
accept branch evaluated at concrete tokens and a one-user store. -/
theorem gate_rejects_uniformly_witness :
    get_current_user [] (.jwt ⟨some "x", 10, false⟩) 0
      = .error credentials_exception ∧
    get_current_user [] (.jwt ⟨some "x", 10, true⟩) 10
      = .error credentials_exception ∧
    get_current_user [] (.jwt ⟨some "x", 10, true⟩) 0
      = .error credentials_exception ∧
    get_current_user [⟨"id1", "x", none, ⟨0, "pw"⟩, 0⟩]
      (.jwt ⟨some "x", 10, true⟩) 0 = .ok ⟨"id1", "x", none, ⟨0, "pw"⟩, 0⟩ :=
  ⟨(gate_rejects_uniformly [] 0).2.2.1 ⟨some "x", 10, false⟩ rfl,
   (gate_rejects_uniformly [] 10).2.2.2.1 ⟨some "x", 10, true⟩ (by decide),
   (gate_rejects_uniformly [] 0).2.2.2.2.1 ⟨some "x", 10, true⟩ "x"
      rfl (by decide) rfl (by decide),
   (gate_rejects_uniformly [⟨"id1", "x", none, ⟨0, "pw"⟩, 0⟩] 0).2.2.2.2.2
      ⟨some "x", 10, true⟩ "x" ⟨"id1", "x", none, ⟨0, "pw"⟩, 0⟩
      rfl (by decide) rfl (by decide)⟩

/-- C9: a token whose signature verifies and whose expiry has not passed but
whose payload has no `sub` claim is rejected with the same 401 as an invalid
signature, and the outcome does not depend on the user store at all (no
lookup is reachable on this path). -/
theorem missing_sub_claim_rejected (users otherUsers : List User)
    (e now : Nat) (hvalid : now < e) :
    get_current_user users (.jwt ⟨none, e, true⟩) now
      = .error credentials_exception ∧
    get_current_user users (.jwt ⟨none, e, true⟩) now
      = get_current_user users (.jwt ⟨none, e, false⟩) now ∧
    get_current_user users (.jwt ⟨none, e, true⟩) now
      = get_current_user otherUsers (.jwt ⟨none, e, true⟩) now := by
  refine ⟨?_, ?_, ?_⟩ <;>
    simp [get_current_user, jwt_decode, hvalid]

/-- Witness for `missing_sub_claim_rejected`: an unexpired, signed,
subject-less token at time 0 against the empty and a populated store. -/
theorem missing_sub_claim_rejected_witness :
    get_current_user [] (.jwt ⟨none, 10, true⟩) 0
      = .error credentials_exception ∧
    get_current_user [] (.jwt ⟨none, 10, true⟩) 0
      = get_current_user [⟨"id1", "x", none, ⟨0, "pw"⟩, 0⟩]
          (.jwt ⟨none, 10, true⟩) 0 :=
  ⟨(missing_sub_claim_rejected [] [⟨"id1", "x", none, ⟨0, "pw"⟩, 0⟩]
      10 0 (by decide)).1,
   (missing_sub_claim_rejected [] [⟨"id1", "x", none, ⟨0, "pw"⟩, 0⟩]
      10 0 (by decide)).2.2⟩

/-- C1: owner scoping of get-video and delete-video.  For a stored record
whose id is owned solely by its owner, any caller with a different user id
gets `videoNotFound` from both operations with the store left unchanged —
exactly the outcome of an id matching no record at all — and a record is
ever returned (or deleted) only by a caller whose user id equals the
record's `user_id`. -/
theorem owner_scoped_access (videos : List VideoRecord) (r : VideoRecord)
    (B : User) (_hmem : r ∈ videos)
    (hids : ∀ r' ∈ videos, r'.id = r.id → r'.user_id = r.user_id)
    (hdiff : B.id ≠ r.user_id) :
    get_video videos r.id B = .error videoNotFound ∧
    (delete_video videos r.id B).1 = .error videoNotFound ∧
    (delete_video videos r.id B).2 = videos ∧
    (∀ vid : String, (∀ r' ∈ videos, r'.id ≠ vid) →
      get_video videos vid B = .error videoNotFound ∧
      (delete_video videos vid B).1 = .error videoNotFound ∧
      (delete_video videos vid B).2 = videos) ∧
    (∀ (vid : String) (rec : VideoRecord) (u : User),
      get_video videos vid u = .ok rec → rec.user_id = u.id) ∧
    (∀ (vid : String) (u : User),
      (delete_video videos vid u).1 = .ok "Video deleted successfully" →
      ∃ rec ∈ videos, rec.id = vid ∧ rec.user_id = u.id) := by
  have hnomatch : ∀ v ∈ videos, videoMatches r.id B.id v = false := by
    intro v hv
    simp only [videoMatches, Bool.and_eq_false_iff, beq_eq_false_iff_ne, ne_eq]
    by_cases hid : v.id = r.id
    · exact Or.inr (fun h => hdiff (h ▸ hids v hv hid))
    · exact Or.inl hid
  have hfind : findVideoForUser videos r.id B.id = none := by
    rw [findVideoForUser, List.find?_eq_none]
    intro v hv
    simpa [videoMatches] using hnomatch v hv
  have hany : videos.any (videoMatches r.id B.id) = false := by
    rw [Bool.eq_false_iff, ne_eq, List.any_eq_true]
    rintro ⟨v, hv, hp⟩
    simp [hnomatch v hv] at hp
  refine ⟨?_, ?_, ?_, ?_, ?_, ?_⟩
  · simp [get_video, hfind]
  · simp [delete_video, hany]
  · simp only [delete_video, hany]
    exact List.eraseP_of_forall_not
      (fun v hv => by simp [hnomatch v hv])
  · intro vid hvid
    have hnom : ∀ v ∈ videos, videoMatches vid B.id v = false := by
      intro v hv
      simp [videoMatches, hvid v hv]
    have hf : findVideoForUser videos vid B.id = none := by
      rw [findVideoForUser, List.find?_eq_none]
      intro v hv
      simpa [videoMatches] using hnom v hv
    have ha : videos.any (videoMatches vid B.id) = false := by
      rw [Bool.eq_false_iff, ne_eq, List.any_eq_true]
      rintro ⟨v, hv, hp⟩
      simp [hnom v hv] at hp
    refine ⟨by simp [get_video, hf], by simp [delete_video, ha], ?_⟩
    simp only [delete_video, ha]
    exact List.eraseP_of_forall_not (fun v hv => by simp [hnom v hv])
  · intro vid rec u hok
    rw [get_video] at hok
    cases hfv : findVideoForUser videos vid u.id with
    | none => rw [hfv] at hok; cases hok
    | some v =>
      rw [hfv] at hok
      cases hok
      have := List.find?_some hfv
      simp only [Bool.and_eq_true, beq_iff_eq] at this
      exact this.2
  · intro vid u hok
    rw [delete_video] at hok
    by_cases ha : videos.any (videoMatches vid u.id) = true
    · obtain ⟨v, hv, hp⟩ := List.any_eq_true.mp ha
      simp only [videoMatches, Bool.and_eq_true, beq_iff_eq] at hp
      exact ⟨v, hv, hp.1, hp.2⟩
    · simp only [Bool.not_eq_true] at ha
      simp [ha] at hok

/-- Witness for `owner_scoped_access`: a one-record store owned by user id
`"A"`, accessed by a user with id `"B"`; both operations answer 404 and the
store is unchanged. -/
theorem owner_scoped_access_witness :
    get_video [⟨"v1", "A", "d", none, none, none, 0⟩] "v1"
      ⟨"B", "b@c", none, ⟨0, "pw"⟩, 0⟩ = .error videoNotFound ∧
    (delete_video [⟨"v1", "A", "d", none, none, none, 0⟩] "v1"
      ⟨"B", "b@c", none, ⟨0, "pw"⟩, 0⟩).1 = .error videoNotFound ∧
    (delete_video [⟨"v1", "A", "d", none, none, none, 0⟩] "v1"
      ⟨"B", "b@c", none, ⟨0, "pw"⟩, 0⟩).2
      = [⟨"v1", "A", "d", none, none, none, 0⟩] :=
  ⟨(owner_scoped_access [⟨"v1", "A", "d", none, none, none, 0⟩]
      ⟨"v1", "A", "d", none, none, none, 0⟩ ⟨"B", "b@c", none, ⟨0, "pw"⟩, 0⟩
      (by decide) (by decide) (by decide)).1,
   (owner_scoped_access [⟨"v1", "A", "d", none, none, none, 0⟩]
      ⟨"v1", "A", "d", none, none, none, 0⟩ ⟨"B", "b@c", none, ⟨0, "pw"⟩, 0⟩
      (by decide) (by decide) (by decide)).2.1,
   (owner_scoped_access [⟨"v1", "A", "d", none, none, none, 0⟩]
      ⟨"v1", "A", "d", none, none, none, 0⟩ ⟨"B", "b@c", none, ⟨0, "pw"⟩, 0⟩
      (by decide) (by decide) (by decide)).2.2.1⟩

/-- C3: register rejects a duplicate email with the literal 400 response and
inserts nothing; on a fresh email it inserts exactly one new user document
and returns 200 with a bearer token. -/
theorem register_duplicate_check (users : List User) (e pw : String)
    (phone : Option String) (salt : Nat) (fid : String) (now : Nat) :
    ((∃ u ∈ users, u.email = e) →
      register users e pw phone salt fid now =
        (.error ⟨400, "Email already registered", false⟩, users)) ∧
    ((∀ u ∈ users, u.email ≠ e) →
      register users e pw phone salt fid now =
        (.ok ⟨create_access_token (some e)
              (some (ACCESS_TOKEN_EXPIRE_MINUTES * 60)) now, "bearer"⟩,
          users ++ [⟨fid, e, phone, get_password_hash pw salt, now⟩])) := by
  constructor
  · rintro ⟨u, hu, hue⟩
    cases hf : findUserByEmail users e with
    | none =>
      rw [findUserByEmail, List.find?_eq_none] at hf
      exact absurd (by simpa using hue) (hf u hu)
    | some w =>
      simp [register, hf, emailAlreadyRegistered]
  · intro hfresh
    have hf : findUserByEmail users e = none := by
      rw [findUserByEmail, List.find?_eq_none]
      intro u hu
      simpa using hfresh u hu
    simp [register, hf]

/-- Witness for `register_duplicate_check`: registering `"a@b.c"` against a
store already holding that email answers the 400 and leaves the store as it
was; against the empty store it inserts the one new user and returns the
bearer token. -/
theorem register_duplicate_check_witness :
    register [⟨"id1", "a@b.c", none, ⟨0, "pw"⟩, 0⟩] "a@b.c" "pw2" none 1 "id2" 5 =
      (.error ⟨400, "Email already registered", false⟩,
        [⟨"id1", "a@b.c", none, ⟨0, "pw"⟩, 0⟩]) ∧
    register [] "a@b.c" "pw2" none 1 "id2" 5 =
      (.ok ⟨create_access_token (some "a@b.c")
            (some (ACCESS_TOKEN_EXPIRE_MINUTES * 60)) 5, "bearer"⟩,
        [⟨"id2", "a@b.c", none, get_password_hash "pw2" 1, 5⟩]) :=
  ⟨(register_duplicate_check [⟨"id1", "a@b.c", none, ⟨0, "pw"⟩, 0⟩]
      "a@b.c" "pw2" none 1 "id2" 5).1
      ⟨⟨"id1", "a@b.c", none, ⟨0, "pw"⟩, 0⟩, by decide, rfl⟩,
   (register_duplicate_check [] "a@b.c" "pw2" none 1 "id2" 5).2
      (by intro u hu; cases hu)⟩

/-- C4: login with a registered email and a non-verifying password and login
with an unregistered email produce byte-identical failure responses: status
401, detail `"Incorrect email or password"`, `WWW-Authenticate: Bearer`. -/
theorem login_failures_indistinguishable (users : List User)
    (e1 pw1 e2 pw2 : String) (u : User) (now1 now2 : Nat)
    (h1 : findUserByEmail users e1 = some u)
    (h2 : verify_password pw1 u.hashed_password = false)
    (h3 : findUserByEmail users e2 = none) :
    login users e1 pw1 now1 = .error ⟨401, "Incorrect email or password", true⟩ ∧
    login users e2 pw2 now2 = .error ⟨401, "Incorrect email or password", true⟩ ∧
    login users e1 pw1 now1 = login users e2 pw2 now2 := by
  have ha : login users e1 pw1 now1
      = .error ⟨401, "Incorrect email or password", true⟩ := by
    simp [login, h1, h2, incorrectEmailOrPassword]
  have hb : login users e2 pw2 now2
      = .error ⟨401, "Incorrect email or password", true⟩ := by
    simp [login, h3, incorrectEmailOrPassword]
  exact ⟨ha, hb, ha.trans hb.symm⟩

/-- Witness for `login_failures_indistinguishable`: wrong password for the
stored `"a@b.c"` versus any password for the absent `"z@b.c"`. -/
theorem login_failures_indistinguishable_witness :
    login [⟨"id1", "a@b.c", none, ⟨0, "right"⟩, 0⟩] "a@b.c" "wrong" 3 =
      .error ⟨401, "Incorrect email or password", true⟩ ∧
    login [⟨"id1", "a@b.c", none, ⟨0, "right"⟩, 0⟩] "z@b.c" "anything" 7 =
      .error ⟨401, "Incorrect email or password", true⟩ :=
  ⟨(login_failures_indistinguishable [⟨"id1", "a@b.c", none, ⟨0, "right"⟩, 0⟩]
      "a@b.c" "wrong" "z@b.c" "anything" ⟨"id1", "a@b.c", none, ⟨0, "right"⟩, 0⟩
      3 7 (by decide) (by decide) (by decide)).1,
   (login_failures_indistinguishable [⟨"id1", "a@b.c", none, ⟨0, "right"⟩, 0⟩]
      "a@b.c" "wrong" "z@b.c" "anything" ⟨"id1", "a@b.c", none, ⟨0, "right"⟩, 0⟩
      3 7 (by decide) (by decide) (by decide)).2.1⟩

/-- The listing length is the caller's owned-record count capped at 1000
(the `to_list(1000)` cursor bound). -/
theorem get_user_videos_length (videos : List VideoRecord) (u : User) :
    (get_user_videos videos u).length =
      min (videos.countP (fun v => v.user_id == u.id)) 1000 := by
  simp [get_user_videos, List.length_take, List.countP_eq_length_filter,
    Nat.min_comm]

/-- C5 (amended): list-videos returns summaries of the caller's records —
id, timestamp, location, phone, never the payload — in store order, but
capped at 1000 entries by `to_list(1000)`: the length is `min N 1000`, not
always `N`.  Rewriting every record's payload never changes the listing. -/
theorem list_videos_summary_projection (videos : List VideoRecord) (u : User) :
    (get_user_videos videos u).length =
      min (videos.countP (fun v => v.user_id == u.id)) 1000 ∧
    (∀ s ∈ get_user_videos videos u,
      ∃ v ∈ videos, v.user_id = u.id ∧ s = summarize v) ∧
    (∀ f : VideoRecord → String,
      get_user_videos (videos.map (fun v => { v with video_data := f v })) u =
        get_user_videos videos u) := by
  refine ⟨get_user_videos_length videos u, ?_, ?_⟩
  · intro s hs
    simp only [get_user_videos, List.mem_map] at hs
    obtain ⟨v, hv, hsv⟩ := hs
    have hv' := List.mem_of_mem_take hv
    rw [List.mem_filter] at hv'
    exact ⟨v, hv'.1, by simpa using hv'.2, hsv.symm⟩
  · intro f
    simp only [get_user_videos, List.filter_map]
    have hpres : ((fun v : VideoRecord => v.user_id == u.id) ∘
        (fun v => { v with video_data := f v })) =
        fun v : VideoRecord => v.user_id == u.id := rfl
    rw [hpres, ← List.map_take, List.map_map]
    rfl

/-- Witness for `list_videos_summary_projection` at a one-record store: the
single summary is the projection of the single record. -/
theorem list_videos_summary_projection_witness :
    (get_user_videos [⟨"v1", "u1", "d", none, none, none, 0⟩]
        ⟨"u1", "a@b", none, ⟨0, "pw"⟩, 0⟩).length = min 1 1000 ∧
    ∃ v ∈ [(⟨"v1", "u1", "d", none, none, none, 0⟩ : VideoRecord)],
      v.user_id = "u1" ∧ summarize (⟨"v1", "u1", "d", none, none, none, 0⟩ :
        VideoRecord) = summarize v :=
  ⟨(list_videos_summary_projection [⟨"v1", "u1", "d", none, none, none, 0⟩]
      ⟨"u1", "a@b", none, ⟨0, "pw"⟩, 0⟩).1,
   (list_videos_summary_projection [⟨"v1", "u1", "d", none, none, none, 0⟩]
      ⟨"u1", "a@b", none, ⟨0, "pw"⟩, 0⟩).2.1
      (summarize ⟨"v1", "u1", "d", none, none, none, 0⟩) (by decide)⟩

/-- C5 counterexample: a user owning 1001 records receives only 1000
summaries, because the handler reads the cursor with `to_list(1000)`; the
claim's "exactly N summaries" fails at N = 1001. -/
theorem list_videos_cap_counterexample :
    (List.replicate 1001
      (⟨"v1", "u1", "d", none, none, none, 0⟩ : VideoRecord)).length = 1001 ∧
    (get_user_videos
      (List.replicate 1001 (⟨"v1", "u1", "d", none, none, none, 0⟩ : VideoRecord))
      ⟨"u1", "a@b", none, ⟨0, "pw"⟩, 0⟩).length = 1000 ∧
    (1000 : Nat) ≠ 1001 := by
  refine ⟨List.length_replicate 1001 _, ?_, by decide⟩
  rw [get_user_videos_length, List.countP_replicate]
  norm_num

/-- In a duplicate-free store where every record matching the predicate is
the record `r` itself, `eraseP` (Mongo's `delete_one`) leaves no matching
record behind. -/
theorem eraseP_clears (p : VideoRecord → Bool) (r : VideoRecord) :
    ∀ l : List VideoRecord, (∀ v ∈ l, p v = true → v = r) → r ∈ l →
      p r = true → l.Nodup → ∀ v ∈ l.eraseP p, p v = false := by
  intro l
  induction l with
  | nil => intro _ hr; cases hr
  | cons x xs ih =>
    intro hall hr hp hnd v hv
    by_cases hx : p x = true
    · have hxr : x = r := hall x (List.mem_cons_self x xs) hx
      rw [List.eraseP_cons_of_pos hx] at hv
      by_cases hpv : p v = true
      · have hvr : v = r := hall v (List.mem_cons_of_mem x hv) hpv
        have hnotmem : x ∉ xs := (List.nodup_cons.mp hnd).1
        exact absurd (show x ∈ xs by rw [hxr, ← hvr]; exact hv) hnotmem
      · simpa using hpv
    · rw [List.eraseP_cons_of_neg (by simpa using hx)] at hv
      rcases List.mem_cons.mp hv with hvx | hv'
      · subst hvx; simpa using hx
      · have hrx : r ≠ x := fun h => hx (h ▸ hp)
        have hr' : r ∈ xs := by
          rcases List.mem_cons.mp hr with h | h
          · exact absurd h hrx
          · exact h
        exact ih (fun w hw => hall w (List.mem_cons_of_mem x hw)) hr' hp
          (List.nodup_cons.mp hnd).2 v hv'

/-- When every record matching the predicate is `r` itself, `eraseP` keeps
every record other than `r`. -/
theorem eraseP_keeps (p : VideoRecord → Bool) (r : VideoRecord) :
    ∀ l : List VideoRecord, (∀ v ∈ l, p v = true → v = r) →
      ∀ v ∈ l, v ≠ r → v ∈ l.eraseP p := by
  intro l
  induction l with
  | nil => intro _ v hv; cases hv
  | cons x xs ih =>
    intro hall v hv hvr
    by_cases hx : p x = true
    · have hxr : x = r := hall x (List.mem_cons_self x xs) hx
      rw [List.eraseP_cons_of_pos hx]
      rcases List.mem_cons.mp hv with h | h
      · exact absurd (h.trans hxr) hvr
      · exact h
    · rw [List.eraseP_cons_of_neg (by simpa using hx)]
      rcases List.mem_cons.mp hv with h | h
      · subst h; exact List.mem_cons_self v _
      · exact List.mem_cons_of_mem x
          (ih (fun w hw => hall w (List.mem_cons_of_mem x hw)) v h hvr)

/-- C6: deleting an owned record removes exactly that record — the store
shrinks by one, every other record survives, and the record afterwards
appears in neither the get-video nor the list-videos result; deleting an id
with no matching owned record answers 404 and leaves the store exactly as
it was (no record of any user is removed). -/
theorem delete_video_correct (videos : List VideoRecord) (u : User) :
    (∀ r ∈ videos, r.user_id = u.id →
      (∀ r' ∈ videos, r'.id = r.id → r' = r) → videos.Nodup →
      (delete_video videos r.id u).1 = .ok "Video deleted successfully" ∧
      (delete_video videos r.id u).2.length + 1 = videos.length ∧
      (∀ v ∈ (delete_video videos r.id u).2, v ∈ videos ∧ v ≠ r) ∧
      (∀ v ∈ videos, v ≠ r → v ∈ (delete_video videos r.id u).2) ∧
      get_video (delete_video videos r.id u).2 r.id u = .error videoNotFound ∧
      (∀ s ∈ get_user_videos (delete_video videos r.id u).2 u, s.id ≠ r.id)) ∧
    (∀ vid : String, (∀ r ∈ videos, ¬(r.id = vid ∧ r.user_id = u.id)) →
      (delete_video videos vid u).1 = .error videoNotFound ∧
      (delete_video videos vid u).2 = videos) := by
  constructor
  · intro r hmem hown hids hnd
    have hp : videoMatches r.id u.id r = true := by
      simp [videoMatches, hown]
    have hall : ∀ v ∈ videos, videoMatches r.id u.id v = true → v = r := by
      intro v hv hpv
      simp only [videoMatches, Bool.and_eq_true, beq_iff_eq] at hpv
      exact hids v hv hpv.1
    have hany : videos.any (videoMatches r.id u.id) = true :=
      List.any_eq_true.mpr ⟨r, hmem, hp⟩
    have key : delete_video videos r.id u =
        (.ok "Video deleted successfully",
          videos.eraseP (videoMatches r.id u.id)) := by
      simp [delete_video, hany]
    have hclear := eraseP_clears (videoMatches r.id u.id) r videos hall hmem hp hnd
    refine ⟨by rw [key], ?_, ?_, ?_, ?_, ?_⟩
    · rw [key]
      dsimp only
      have hlen := List.length_eraseP_of_mem hmem hp
      have hpos : 0 < videos.length := List.length_pos_of_mem hmem
      omega
    · intro v hv
      rw [key] at hv
      refine ⟨List.mem_of_mem_eraseP hv, fun hvr => ?_⟩
      have := hclear v hv
      rw [hvr] at this
      rw [hp] at this
      cases this
    · intro v hv hvr
      rw [key]
      exact eraseP_keeps (videoMatches r.id u.id) r videos hall v hv hvr
    · rw [key]
      have hfind : findVideoForUser
          (videos.eraseP (videoMatches r.id u.id)) r.id u.id = none := by
        rw [findVideoForUser, List.find?_eq_none]
        intro v hv
        simpa [videoMatches] using hclear v hv
      simp [get_video, hfind]
    · intro s hs
      rw [key] at hs
      simp only [get_user_videos, List.mem_map] at hs
      obtain ⟨v, hv, hsv⟩ := hs
      have hv' := List.mem_of_mem_take hv
      rw [List.mem_filter] at hv'
      intro hsid
      have hvid : v.id = r.id := by
        rw [← hsv] at hsid
        simpa [summarize] using hsid
      have : videoMatches r.id u.id v = true := by
        simp only [videoMatches, Bool.and_eq_true, beq_iff_eq]
        exact ⟨hvid, by simpa using hv'.2⟩
      rw [hclear v hv'.1] at this
      cases this
  · intro vid hno
    have hnom : ∀ v ∈ videos, videoMatches vid u.id v = false := by
      intro v hv
      simp only [videoMatches, Bool.and_eq_false_iff, beq_eq_false_iff_ne, ne_eq]
      by_cases hid : v.id = vid
      · exact Or.inr (fun h => hno v hv ⟨hid, h⟩)
      · exact Or.inl hid
    have hany : videos.any (videoMatches vid u.id) = false := by
      rw [Bool.eq_false_iff, ne_eq, List.any_eq_true]
      rintro ⟨v, hv, hpv⟩
      simp [hnom v hv] at hpv
    constructor
    · simp [delete_video, hany]
    · simp only [delete_video, hany]
      exact List.eraseP_of_forall_not (fun v hv => by simp [hnom v hv])

/-- Witness for `delete_video_correct` on a two-record store: deleting
`"v1"` keeps exactly `"v2"`, and deleting the absent `"v9"` changes
nothing. -/
theorem delete_video_correct_witness :
    (delete_video [⟨"v1", "u1", "d1", none, none, none, 0⟩,
        ⟨"v2", "u1", "d2", none, none, none, 1⟩] "v1"
        ⟨"u1", "a@b", none, ⟨0, "pw"⟩, 0⟩).1 = .ok "Video deleted successfully" ∧
    (delete_video [⟨"v1", "u1", "d1", none, none, none, 0⟩,
        ⟨"v2", "u1", "d2", none, none, none, 1⟩] "v1"
        ⟨"u1", "a@b", none, ⟨0, "pw"⟩, 0⟩).2.length + 1 = 2 ∧
    (delete_video [⟨"v1", "u1", "d1", none, none, none, 0⟩,
        ⟨"v2", "u1", "d2", none, none, none, 1⟩] "v9"
        ⟨"u1", "a@b", none, ⟨0, "pw"⟩, 0⟩).2 =
      [⟨"v1", "u1", "d1", none, none, none, 0⟩,
        ⟨"v2", "u1", "d2", none, none, none, 1⟩] :=
  ⟨((delete_video_correct [⟨"v1", "u1", "d1", none, none, none, 0⟩,
        ⟨"v2", "u1", "d2", none, none, none, 1⟩]
        ⟨"u1", "a@b", none, ⟨0, "pw"⟩, 0⟩).1
      ⟨"v1", "u1", "d1", none, none, none, 0⟩ (by decide) (by decide)
      (by decide) (by decide)).1,
   ((delete_video_correct [⟨"v1", "u1", "d1", none, none, none, 0⟩,
        ⟨"v2", "u1", "d2", none, none, none, 1⟩]
        ⟨"u1", "a@b", none, ⟨0, "pw"⟩, 0⟩).1
      ⟨"v1", "u1", "d1", none, none, none, 0⟩ (by decide) (by decide)
      (by decide) (by decide)).2.1,
   ((delete_video_correct [⟨"v1", "u1", "d1", none, none, none, 0⟩,
        ⟨"v2", "u1", "d2", none, none, none, 1⟩]
        ⟨"u1", "a@b", none, ⟨0, "pw"⟩, 0⟩).2 "v9" (by decide)).2⟩

/-- C8: an authenticated upload with a fresh id succeeds with the literal
success message and the new id, and an immediate get-video by the same user
with that id returns the stored record, whose `video_data` is the uploaded
string, character for character. -/
theorem upload_then_get_round_trip (videos : List VideoRecord) (u : User)
    (video : VideoUpload) (fid : String) (now : Nat)
    (hfresh : ∀ v ∈ videos, v.id ≠ fid) :
    (upload_video videos u video fid now).1 =
      ⟨"Video uploaded successfully", fid⟩ ∧
    get_video (upload_video videos u video fid now).2 fid u =
      .ok ⟨fid, u.id, video.video_data, video.location_lat,
        video.location_lng, video.phone_number, now⟩ := by
  refine ⟨rfl, ?_⟩
  have hnone : videos.find? (fun v => v.id == fid && v.user_id == u.id) = none := by
    rw [List.find?_eq_none]
    intro v hv
    simp [hfresh v hv]
  simp [get_video, findVideoForUser, upload_video, List.find?_append, hnone]

/-- Witness for `upload_then_get_round_trip`: uploading `"DATA"` into the
empty store and reading it back. -/
theorem upload_then_get_round_trip_witness :
    get_video (upload_video [] ⟨"u1", "a@b", none, ⟨0, "pw"⟩, 0⟩
        ⟨"DATA", none, none, none⟩ "v1" 9).2 "v1"
        ⟨"u1", "a@b", none, ⟨0, "pw"⟩, 0⟩
      = .ok ⟨"v1", "u1", "DATA", none, none, none, 9⟩ :=
  (upload_then_get_round_trip [] ⟨"u1", "a@b", none, ⟨0, "pw"⟩, 0⟩
    ⟨"DATA", none, none, none⟩ "v1" 9 (by intro v hv; cases hv)).2

/-- C10: upload validates nothing about `video_data` beyond it being a
string: any string — empty or not well-formed base64 — uploads with the
literal success response and is appended to the store unchanged as the new
record's payload. -/
theorem upload_accepts_any_string (videos : List VideoRecord) (u : User)
    (s : String) (lat lng : Option Int) (ph : Option String)
    (fid : String) (now : Nat) :
    (upload_video videos u ⟨s, lat, lng, ph⟩ fid now).1 =
      ⟨"Video uploaded successfully", fid⟩ ∧
    (upload_video videos u ⟨s, lat, lng, ph⟩ fid now).2 =
      videos ++ [⟨fid, u.id, s, lat, lng, ph, now⟩] :=
  ⟨rfl, rfl⟩

end Cam
